import Mathlib

/-!
Verification of the InSAR-to-point-cloud conversion engine
(`scripts/data_conversion/insar_to_point_cloud.py`).

The embedding models the numeric pipeline of `create_point_cloud`, the two
writers `save_to_las` / `save_to_xyz`, and the per-pair orchestration of
`process_deformation_file` / `main`.  Raster cell values are modelled by
`FloatVal` (rational number, NaN, or a signed infinity), which captures the
IEEE comparison behaviour the filter relies on (`NaN > t` is false, `+inf > t`
is true) while keeping the geocoding arithmetic exact.  NumPy boolean-mask
extraction flattens in row-major (C) order; the embedding makes that order
explicit via `indicesRM`.  Indexing an array with a boolean mask of a
different shape raises `IndexError`; errors are modelled with `Except`.
-/

namespace Insar

/-- A raster cell value: a finite number, NaN, or a signed infinity. -/
inductive FloatVal where
  | nan : FloatVal
  | posInf : FloatVal
  | negInf : FloatVal
  | num : ℚ → FloatVal
deriving DecidableEq

/-- `np.isnan` on a cell value. -/
def FloatVal.isNaN : FloatVal → Bool
  | .nan => true
  | _ => false

/-- IEEE comparison `v > t` against a finite threshold `t`:
false for NaN, true for `+inf`, false for `-inf`. -/
def FloatVal.gtThreshold : FloatVal → ℚ → Bool
  | .nan, _ => false
  | .posInf, _ => true
  | .negInf, _ => false
  | .num q, t => decide (t < q)

/-- A single-band raster grid (`deformation.shape == (height, width)`,
`grid[r, c] == cell r c`). -/
structure Grid where
  height : ℕ
  width : ℕ
  cell : ℕ → ℕ → FloatVal

/-- The 6-coefficient geocoding transform, indexed in the source as
`transform[0] .. transform[5]`; field names follow the spec's reading:
`originX = transform[0]`, `pixelWidth = transform[1]`, `rotX = transform[2]`,
`originY = transform[3]`, `rotY = transform[4]`, `pixelHeight = transform[5]`. -/
structure Transform where
  originX : ℚ
  pixelWidth : ℚ
  rotX : ℚ
  originY : ℚ
  rotY : ℚ
  pixelHeight : ℚ

/-- Lines 74-75 of the source, per cell:
`x = transform[0] + col * transform[1] + row * transform[2]`,
`y = transform[3] + col * transform[4] + row * transform[5]`. -/
def cellToGround (row col : ℕ) (t : Transform) : ℚ × ℚ :=
  (t.originX + (col : ℚ) * t.pixelWidth + (row : ℚ) * t.rotX,
   t.originY + (col : ℚ) * t.rotY + (row : ℚ) * t.pixelHeight)

/-- All cell indices of an `height × width` grid in row-major (C) order:
the order in which NumPy boolean masking extracts elements. -/
def indicesRM (height width : ℕ) : List (ℕ × ℕ) :=
  (List.range height).flatMap fun r => (List.range width).map fun c => (r, c)

/-- Line 78: `mask = (cols % resolution == 0) & (rows % resolution == 0)`,
applied in row-major extraction order. -/
def selectedIndices (height width resolution : ℕ) : List (ℕ × ℕ) :=
  (indicesRM height width).filter fun rc =>
    rc.2 % resolution == 0 && rc.1 % resolution == 0

/-- Lines 84-87: the coherence value used for a selected cell — the coherence
grid's cell when a coherence raster was supplied, else `1.0`
(`np.ones_like(z_values)`). -/
def coherenceAt (coherence : Option Grid) (rc : ℕ × ℕ) : FloatVal :=
  match coherence with
  | some g => g.cell rc.1 rc.2
  | none => .num 1

/-- Line 90: `valid_mask = ~np.isnan(z_values) & (coherence_values > 0.3)`. -/
def valid_mask (deformation : Grid) (coherence : Option Grid) (rc : ℕ × ℕ) : Bool :=
  !(deformation.cell rc.1 rc.2).isNaN
    && (coherenceAt coherence rc).gtThreshold (mkRat 3 10)

/-- The surviving cell indices: decimation-selected cells that pass
`valid_mask`, in row-major extraction order (lines 78-94). -/
def survivingIndices (deformation : Grid) (coherence : Option Grid)
    (resolution : ℕ) : List (ℕ × ℕ) :=
  (selectedIndices deformation.height deformation.width resolution).filter
    (valid_mask deformation coherence)

/-- Errors the modelled code can raise.  `indexError` models NumPy's
`IndexError` from indexing an array with a boolean mask of a different
shape (line 85 when the coherence raster's dimensions differ). -/
inductive PyError where
  | indexError : PyError
deriving DecidableEq

/-- The result of `create_point_cloud`: the `points` array (rows `(x, y, z)`)
and the `attributes` dict with its two entries, in insertion order
(`deformation` then `coherence`), each index-aligned with `points`. -/
structure PointCloud where
  points : List (ℚ × ℚ × FloatVal)
  deformation_attr : List FloatVal
  coherence_attr : List FloatVal
deriving DecidableEq

/-- The pure part of `create_point_cloud` (lines 70-107) once the coherence
mask indexing is known to be well-shaped. -/
def buildCloud (deformation : Grid) (coherence : Option Grid)
    (transform : Transform) (resolution : ℕ) : PointCloud :=
  let surv := survivingIndices deformation coherence resolution
  { points := surv.map fun rc =>
      ((cellToGround rc.1 rc.2 transform).1,
       (cellToGround rc.1 rc.2 transform).2,
       deformation.cell rc.1 rc.2)
    deformation_attr := surv.map fun rc => deformation.cell rc.1 rc.2
    coherence_attr := surv.map fun rc => coherenceAt coherence rc }

/-- `create_point_cloud(deformation, coherence, transform, config)`
(lines 61-107).  When a coherence grid is supplied, line 85 indexes it with a
boolean mask of the deformation grid's shape: NumPy raises `IndexError` if
the shapes differ, and no `DimensionMismatchError` exists in the source. -/
def create_point_cloud (deformation : Grid) (coherence : Option Grid)
    (transform : Transform) (resolution : ℕ) : Except PyError PointCloud :=
  match coherence with
  | some g =>
      if g.height = deformation.height ∧ g.width = deformation.width then
        .ok (buildCloud deformation (some g) transform resolution)
      else
        .error .indexError
  | none => .ok (buildCloud deformation none transform resolution)

/-- The LAS output modelled structurally: header fields set by
`save_to_las` (lines 109-140) plus the coordinate arrays and the named
extra dimensions in attribute-insertion order. -/
structure LASFile where
  version_major : ℕ
  version_minor : ℕ
  point_format : ℕ
  xs : List ℚ
  ys : List ℚ
  zs : List FloatVal
  extra_dims : List (String × List FloatVal)
deriving DecidableEq

/-- The point count a LAS header records: the length of the coordinate body. -/
def LASFile.point_count (f : LASFile) : ℕ := f.xs.length

/-- `save_to_las(points, attributes, output_file)` (lines 109-140): LAS 1.4,
point format 7, `x/y/z` from the point columns, one extra dimension per
attribute in dict insertion order. -/
def save_to_las (pc : PointCloud) : LASFile :=
  { version_major := 1
    version_minor := 4
    point_format := 7
    xs := pc.points.map fun p => p.1
    ys := pc.points.map fun p => p.2.1
    zs := pc.points.map fun p => p.2.2
    extra_dims := [("deformation", pc.deformation_attr),
                   ("coherence", pc.coherence_attr)] }

/-- The XYZ text output: the header row of column names and one row of
values per point. -/
structure XYZFile where
  header : List String
  rows : List (List FloatVal)
deriving DecidableEq

/-- `save_to_xyz(points, attributes, output_file)` (lines 142-155):
`DataFrame` columns `X Y Z` plus one column per attribute in insertion
order, written space-separated with a header line. -/
def save_to_xyz (pc : PointCloud) : XYZFile :=
  { header := ["X", "Y", "Z", "deformation", "coherence"]
    rows := (pc.points.zip (pc.deformation_attr.zip pc.coherence_attr)).map
      fun pr => [.num pr.1.1, .num pr.1.2.1, pr.1.2.2, pr.2.1, pr.2.2] }

/-- The per-pair input as `process_deformation_file` sees it after the
readers ran: `read_deformation_data` and `read_coherence_data` catch their
own exceptions and return `None` on failure, and a missing coherence file
also yields `None` (lines 157-167). -/
structure PairInput where
  deformation : Option Grid
  coherence : Option Grid
  transform : Transform

/-- `process_deformation_file` (lines 157-181): returns `False` when the
deformation read failed (the only caught failure), otherwise builds the
cloud and writes both outputs; any error raised by `create_point_cloud`
propagates uncaught. -/
def process_deformation_file (resolution : ℕ) (p : PairInput) :
    Except PyError Bool :=
  match p.deformation with
  | none => .ok false
  | some d =>
      match create_point_cloud d p.coherence p.transform resolution with
      | .error e => .error e
      | .ok pc =>
          let _las := save_to_las pc
          let _xyz := save_to_xyz pc
          .ok true

/-- The loop of `main` (lines 210-219): processes each pair in turn,
incrementing `processed_count` on success; there is no `try/except` around
`process_deformation_file`, so an error it raises aborts the whole loop.
Returns the final `processed_count` that line 219 reports. -/
def main_loop (resolution : ℕ) : List PairInput → ℕ → Except PyError ℕ
  | [], processed_count => .ok processed_count
  | p :: rest, processed_count =>
      match process_deformation_file resolution p with
      | .error e => .error e
      | .ok b =>
          main_loop resolution rest (if b then processed_count + 1 else processed_count)

/-- Strict lexicographic order on cell indices: ascending row, then
ascending column within a row. -/
def lexLt (a b : ℕ × ℕ) : Prop :=
  a.1 < b.1 ∨ (a.1 = b.1 ∧ a.2 < b.2)

lemma countP_mod_range (S : ℕ) (hS : 1 ≤ S) (n : ℕ) :
    (List.range n).countP (fun k => k % S == 0) = (n + S - 1) / S := by
  induction n with
  | zero =>
      rw [List.range_zero, List.countP_nil, eq_comm, Nat.zero_add,
         Nat.div_eq_of_lt (by omega)]
  | succ n ih =>
      rw [List.range_succ, List.countP_append, ih]
      have hS0 : 0 < S := hS
      have hcnt : (List.countP (fun k => k % S == 0) [n])
          = if S ∣ n then 1 else 0 := by
        simp [List.countP_cons, Nat.dvd_iff_mod_eq_zero]
      rw [hcnt]
      rcases n with _ | m
      · have hlt : (S - 1) / S = 0 := Nat.div_eq_of_lt (by omega)
        simp [hlt, Nat.div_self hS0]
      · have e1 : m + 1 + S - 1 = m + S := by omega
        have e2 : m + 1 + 1 + S - 1 = m + 1 + S := by omega
        rw [e1, e2, Nat.add_div_right _ hS0, Nat.add_div_right _ hS0,
          Nat.succ_div]
        split <;> omega

lemma mem_indicesRM {h w : ℕ} {rc : ℕ × ℕ} :
    rc ∈ indicesRM h w ↔ rc.1 < h ∧ rc.2 < w := by
  obtain ⟨r, c⟩ := rc
  simp only [indicesRM, List.mem_flatMap, List.mem_map, List.mem_range,
    Prod.mk.injEq]
  constructor
  · rintro ⟨r', hr', c', hc', rfl, rfl⟩
    exact ⟨hr', hc'⟩
  · rintro ⟨hr, hc⟩
    exact ⟨r, hr, c, hc, rfl, rfl⟩

lemma mem_selectedIndices {h w S : ℕ} {rc : ℕ × ℕ} :
    rc ∈ selectedIndices h w S ↔
      rc.1 < h ∧ rc.2 < w ∧ rc.1 % S = 0 ∧ rc.2 % S = 0 := by
  rw [selectedIndices, List.mem_filter, mem_indicesRM]
  simp only [Bool.and_eq_true, beq_iff_eq]
  tauto

lemma countP_row (S r w : ℕ) :
    ((List.range w).map fun c => (r, c)).countP
        (fun rc => rc.2 % S == 0 && rc.1 % S == 0)
      = if r % S == 0 then (List.range w).countP (fun k => k % S == 0) else 0 := by
  rw [List.countP_map]
  by_cases hr : r % S = 0
  · simp only [hr, beq_self_eq_true, if_true]
    refine List.countP_congr fun c _ => ?_
    simp [Function.comp, hr]
  · have hr' : (r % S == 0) = false := by simp [hr]
    simp only [hr', if_false]
    refine List.countP_eq_zero.2 fun c _ => ?_
    simp [Function.comp, hr]

lemma selectedIndices_length_aux (h w S : ℕ) :
    (selectedIndices h w S).length
      = ((List.range h).countP fun k => k % S == 0)
        * ((List.range w).countP fun k => k % S == 0) := by
  induction h with
  | zero => simp [selectedIndices, indicesRM]
  | succ h ih =>
      have hsplit : selectedIndices (h + 1) w S
          = selectedIndices h w S
            ++ (((List.range w).map fun c => (h, c)).filter
                fun rc => rc.2 % S == 0 && rc.1 % S == 0) := by
        rw [selectedIndices, indicesRM, List.range_succ, List.flatMap_append,
          List.filter_append]
        simp [selectedIndices, indicesRM]
      rw [hsplit, List.length_append, ih, List.range_succ, List.countP_append]
      have hrow : (((List.range w).map fun c => (h, c)).filter
            fun rc => rc.2 % S == 0 && rc.1 % S == 0).length
          = if h % S == 0
            then (List.range w).countP (fun k => k % S == 0) else 0 := by
        rw [← List.countP_eq_length_filter]
        exact countP_row S h w
      have hsingle : List.countP (fun k => k % S == 0) [h]
          = if h % S == 0 then 1 else 0 := by
        simp [List.countP_cons]
      rw [hrow, hsingle]
      by_cases hh : (h % S == 0) = true <;> simp [hh, Nat.add_mul]

lemma selectedIndices_length (h w S : ℕ) (hS : 1 ≤ S) :
    (selectedIndices h w S).length = (h ⌈/⌉ S) * (w ⌈/⌉ S) := by
  rw [selectedIndices_length_aux, countP_mod_range S hS,
    countP_mod_range S hS, Nat.ceilDiv_eq_add_pred_div,
    Nat.ceilDiv_eq_add_pred_div]

lemma create_ok_some {d g : Grid} (t : Transform) (S : ℕ)
    (hh : g.height = d.height) (hw : g.width = d.width) :
    create_point_cloud d (some g) t S = .ok (buildCloud d (some g) t S) := by
  simp [create_point_cloud, hh, hw]

lemma create_ok_elim {d : Grid} {cg : Option Grid} {t : Transform} {S : ℕ}
    {pc : PointCloud} (h : create_point_cloud d cg t S = .ok pc) :
    pc = buildCloud d cg t S := by
  cases cg with
  | none => exact (Except.ok.inj h).symm
  | some g =>
      simp only [create_point_cloud] at h
      by_cases hdim : g.height = d.height ∧ g.width = d.width
      · rw [if_pos hdim] at h
        exact (Except.ok.inj h).symm
      · rw [if_neg hdim] at h
        exact Except.noConfusion h

lemma mem_survivingIndices {d : Grid} {cg : Option Grid} {S : ℕ}
    {rc : ℕ × ℕ} :
    rc ∈ survivingIndices d cg S ↔
      rc ∈ selectedIndices d.height d.width S ∧ valid_mask d cg rc = true :=
  List.mem_filter

lemma pairwise_indicesRM (h w : ℕ) : (indicesRM h w).Pairwise lexLt := by
  induction h with
  | zero => simp [indicesRM]
  | succ h ih =>
      rw [indicesRM, List.range_succ, List.flatMap_append]
      refine List.pairwise_append.2 ⟨ih, ?_, ?_⟩
      · simp only [List.flatMap_cons, List.flatMap_nil, List.append_nil]
        refine List.pairwise_map.2 ?_
        exact (List.pairwise_lt_range w).imp fun hlt => Or.inr ⟨rfl, hlt⟩
      · intro a ha b hb
        have ha' := mem_indicesRM.1 ha
        simp only [List.flatMap_cons, List.flatMap_nil, List.append_nil,
          List.mem_map] at hb
        obtain ⟨c, _, rfl⟩ := hb
        exact Or.inl ha'.1

lemma pairwise_survivingIndices (d : Grid) (cg : Option Grid) (S : ℕ) :
    (survivingIndices d cg S).Pairwise lexLt :=
  List.Pairwise.sublist
    ((List.filter_sublist _).trans (List.filter_sublist _))
    (pairwise_indicesRM d.height d.width)

/-! Concrete inputs used in scenario theorems and witnesses. -/

/-- An axis-aligned transform: unit pixels, origin 0, no rotation. -/
def t0 : Transform := ⟨0, 1, 0, 0, 0, 1⟩

/-- The 4×4 deformation grid holding values 0..15 in row-major order. -/
def grid4x4 : Grid := ⟨4, 4, fun r c => .num ((4 * r + c : ℕ) : ℚ)⟩

/-- A 4×4 coherence grid of constant 0.2, below the 0.3 threshold. -/
def coh02 : Grid := ⟨4, 4, fun _ _ => .num (mkRat 1 5)⟩

/-- A 3×4 coherence grid, mismatching a 4×4 deformation grid. -/
def coh3x4 : Grid := ⟨3, 4, fun _ _ => .num 1⟩

/-- A 1×1 deformation grid holding 0. -/
def zero1x1 : Grid := ⟨1, 1, fun _ _ => .num 0⟩

/-- A 1×1 coherence grid holding exactly the threshold value 0.3. -/
def coh03 : Grid := ⟨1, 1, fun _ _ => .num (mkRat 3 10)⟩

/-- A 1×1 coherence grid holding NaN. -/
def cohNaN : Grid := ⟨1, 1, fun _ _ => .nan⟩

/-- A 1×1 deformation grid holding `+inf`. -/
def inf1x1 : Grid := ⟨1, 1, fun _ _ => .posInf⟩

/-- A 1×1 coherence grid holding 0.9. -/
def coh09 : Grid := ⟨1, 1, fun _ _ => .num (mkRat 9 10)⟩

/-- A 2×2 deformation grid of constant 5. -/
def defo2x2 : Grid := ⟨2, 2, fun _ _ => .num 5⟩

/-- A 1×2 coherence grid, mismatching a 2×2 deformation grid. -/
def coh1x2 : Grid := ⟨1, 2, fun _ _ => .num 1⟩

/-- A pair whose deformation and coherence rasters both read fine. -/
def goodPair : PairInput := ⟨some grid4x4, none, t0⟩

/-- The threshold constant `0.3` of line 90, written in normalised form. -/
lemma threshold_eq : mkRat 3 10 = 3 / 10 := by
  norm_num [Rat.mkRat_eq_div]

/-! ## Claim theorems -/

/-- Claim C1: for every cell index `(row, col)` and every 6-coefficient
geocoding transform, the ground coordinates of the `i`-th point of the
produced cloud — the point built from the `i`-th surviving cell `(row, col)`
— are exactly `x = originX + col·pixelWidth + row·rotX` and
`y = originY + col·rotY + row·pixelHeight`.  The computation is a pure
function of the inputs (deterministic by construction) with no
interpolation. -/
theorem C1_cellToGround_affine (d : Grid) (cg : Option Grid) (t : Transform)
    (S : ℕ) (pc : PointCloud)
    (h : create_point_cloud d cg t S = .ok pc)
    (i : ℕ) (rc : ℕ × ℕ)
    (hrc : (survivingIndices d cg S)[i]? = some rc) :
    pc.points[i]? = some
      (t.originX + (rc.2 : ℚ) * t.pixelWidth + (rc.1 : ℚ) * t.rotX,
       t.originY + (rc.2 : ℚ) * t.rotY + (rc.1 : ℚ) * t.pixelHeight,
       d.cell rc.1 rc.2) := by
  obtain rfl := create_ok_elim h
  simp only [buildCloud]
  rw [List.getElem?_map, hrc]
  simp [cellToGround]

/-- Witness for C1 at a concrete input: the first surviving cell of the
4×4 scenario grid is `(0, 0)` and its point has the affine coordinates. -/
theorem C1_witness :
    (buildCloud grid4x4 none t0 2).points[0]? = some
      (t0.originX + ((0 : ℕ) : ℚ) * t0.pixelWidth
          + ((0 : ℕ) : ℚ) * t0.rotX,
       t0.originY + ((0 : ℕ) : ℚ) * t0.rotY
          + ((0 : ℕ) : ℚ) * t0.pixelHeight,
       grid4x4.cell 0 0) :=
  C1_cellToGround_affine grid4x4 none t0 2 (buildCloud grid4x4 none t0 2)
    rfl 0 (0, 0) (by decide)

/-- Claim C3: for every grid `height × width` and stride `S ≥ 1`, cell
`(row, col)` is selected iff `row % S = 0` and `col % S = 0`, and the number
of selected cells before validity filtering is
`ceil(height/S) * ceil(width/S)` (`⌈/⌉` is ceiling division on ℕ). -/
theorem C3_decimation (height width S : ℕ) (hS : 1 ≤ S) :
    (∀ rc : ℕ × ℕ, rc ∈ selectedIndices height width S ↔
      rc.1 < height ∧ rc.2 < width ∧ rc.1 % S = 0 ∧ rc.2 % S = 0) ∧
    (selectedIndices height width S).length
      = (height ⌈/⌉ S) * (width ⌈/⌉ S) :=
  ⟨fun _ => mem_selectedIndices, selectedIndices_length height width S hS⟩

/-- Witness for C3 at `height = width = 4`, `S = 2`: the count is
`⌈4/2⌉ * ⌈4/2⌉ = 4`. -/
theorem C3_witness :
    (selectedIndices 4 4 2).length = (4 ⌈/⌉ 2) * (4 ⌈/⌉ 2) :=
  (C3_decimation 4 4 2 (by decide)).2

/-- Claim C4: the surviving cell sequence is exactly the row-major scan of
the grid restricted to cells that are decimation-selected and valid, it is in
strictly ascending (row, col) lexicographic order, and the point and
attribute sequences of the produced cloud are the index-aligned images of
that sequence.  The pipeline is a pure function of its inputs, so two runs
on identical inputs yield identical outputs definitionally. -/
theorem C4_row_major_order (d : Grid) (cg : Option Grid) (t : Transform)
    (S : ℕ) (pc : PointCloud)
    (h : create_point_cloud d cg t S = .ok pc) :
    survivingIndices d cg S
        = (indicesRM d.height d.width).filter
            (fun rc => valid_mask d cg rc
              && (rc.2 % S == 0 && rc.1 % S == 0)) ∧
    (survivingIndices d cg S).Pairwise lexLt ∧
    pc.points = (survivingIndices d cg S).map (fun rc =>
        ((cellToGround rc.1 rc.2 t).1, (cellToGround rc.1 rc.2 t).2,
          d.cell rc.1 rc.2)) ∧
    pc.deformation_attr
        = (survivingIndices d cg S).map (fun rc => d.cell rc.1 rc.2) ∧
    pc.coherence_attr = (survivingIndices d cg S).map (coherenceAt cg) := by
  obtain rfl := create_ok_elim h
  refine ⟨?_, pairwise_survivingIndices d cg S, rfl, rfl, rfl⟩
  rw [survivingIndices, selectedIndices, List.filter_filter]

/-- Witness for C4 at a concrete input: the 4×4 scenario grid with stride 2
and no coherence raster. -/
theorem C4_witness :
    survivingIndices grid4x4 none 2
        = (indicesRM grid4x4.height grid4x4.width).filter
            (fun rc => valid_mask grid4x4 none rc
              && (rc.2 % 2 == 0 && rc.1 % 2 == 0)) ∧
    (survivingIndices grid4x4 none 2).Pairwise lexLt ∧
    (buildCloud grid4x4 none t0 2).points
        = (survivingIndices grid4x4 none 2).map (fun rc =>
            ((cellToGround rc.1 rc.2 t0).1, (cellToGround rc.1 rc.2 t0).2,
              grid4x4.cell rc.1 rc.2)) ∧
    (buildCloud grid4x4 none t0 2).deformation_attr
        = (survivingIndices grid4x4 none 2).map
            (fun rc => grid4x4.cell rc.1 rc.2) ∧
    (buildCloud grid4x4 none t0 2).coherence_attr
        = (survivingIndices grid4x4 none 2).map (coherenceAt none) :=
  C4_row_major_order grid4x4 none t0 2 (buildCloud grid4x4 none t0 2) rfl

/-- Claim C7 (scenario): 4×4 deformation grid with values 0..15 row-major,
no coherence raster, stride 2, threshold 0.3 — the surviving cells are
exactly (0,0), (0,2), (2,0), (2,2) in that order, the cloud has 4 points
with deformation values 0, 2, 8, 10, and every coherence attribute is 1.0.
Holds for every geocoding transform. -/
theorem C7_scenario (t : Transform) :
    survivingIndices grid4x4 none 2 = [(0, 0), (0, 2), (2, 0), (2, 2)] ∧
    ∃ pc, create_point_cloud grid4x4 none t 2 = .ok pc ∧
      pc.points.length = 4 ∧
      pc.deformation_attr = [.num 0, .num 2, .num 8, .num 10] ∧
      pc.coherence_attr = [.num 1, .num 1, .num 1, .num 1] := by
  refine ⟨by decide, buildCloud grid4x4 none t 2, rfl, ?_, ?_, ?_⟩
  · simp only [buildCloud, List.length_map]
    decide
  · simp only [buildCloud]
    decide
  · simp only [buildCloud]
    decide

/-- Witness for C7 at the concrete transform `t0`. -/
theorem C7_witness :
    survivingIndices grid4x4 none 2 = [(0, 0), (0, 2), (2, 0), (2, 2)] ∧
    ∃ pc, create_point_cloud grid4x4 none t0 2 = .ok pc ∧
      pc.points.length = 4 ∧
      pc.deformation_attr = [.num 0, .num 2, .num 8, .num 10] ∧
      pc.coherence_attr = [.num 1, .num 1, .num 1, .num 1] :=
  C7_scenario t0

/-- Counterexample to claim C2 as stated: the claim says a selected cell
with non-NaN deformation and coherence exactly equal to the threshold
`T = 0.3` survives, but line 90 filters with the strict comparison
`coherence_values > 0.3`, so the cell of this 1×1 input — selected, with
deformation 0 (not NaN) and coherence exactly `0.3` — is discarded and the
resulting cloud is empty. -/
theorem C2_counterexample :
    (zero1x1.cell 0 0).isNaN = false ∧
    coh03.cell 0 0 = .num (mkRat 3 10) ∧
    (0, 0) ∈ selectedIndices 1 1 1 ∧
    create_point_cloud zero1x1 (some coh03) t0 1 = .ok ⟨[], [], []⟩ := by
  refine ⟨rfl, rfl, by decide, ?_⟩
  have hh : coh03.height = zero1x1.height := rfl
  have hw : coh03.width = zero1x1.width := rfl
  rw [create_ok_some t0 1 hh hw]
  have hz : survivingIndices zero1x1 (some coh03) 1 = [] := by decide
  simp [buildCloud, hz]

/-- Claim C2 as amended: a decimation-selected cell survives the validity
filter iff its deformation value is not NaN and its coherence value is
STRICTLY greater than the (hard-coded) threshold 0.3; consequently no
surviving point has coherence < 0.3, but a cell with coherence exactly 0.3
is discarded. -/
theorem C2_amended (d g : Grid) (S : ℕ) (t : Transform) (pc : PointCloud)
    (h : create_point_cloud d (some g) t S = .ok pc) :
    (∀ rc : ℕ × ℕ, rc ∈ survivingIndices d (some g) S ↔
        rc ∈ selectedIndices d.height d.width S ∧
        (d.cell rc.1 rc.2).isNaN = false ∧
        (g.cell rc.1 rc.2).gtThreshold (mkRat 3 10) = true) ∧
    ∀ v ∈ pc.coherence_attr, v.gtThreshold (mkRat 3 10) = true := by
  constructor
  · intro rc
    rw [mem_survivingIndices]
    simp [valid_mask, coherenceAt]
  · intro v hv
    obtain rfl := create_ok_elim h
    simp only [buildCloud, List.mem_map] at hv
    obtain ⟨rc, hrc, rfl⟩ := hv
    have hvalid := (List.mem_filter.1 hrc).2
    simp only [valid_mask, Bool.and_eq_true] at hvalid
    exact hvalid.2

/-- Witness for C2 (amended) at a concrete input: a 1×1 grid with
coherence 0.9 — its cell survives and its coherence attribute exceeds the
threshold. -/
theorem C2_amended_witness :
    (∀ rc : ℕ × ℕ, rc ∈ survivingIndices zero1x1 (some coh09) 1 ↔
        rc ∈ selectedIndices zero1x1.height zero1x1.width 1 ∧
        (zero1x1.cell rc.1 rc.2).isNaN = false ∧
        (coh09.cell rc.1 rc.2).gtThreshold (mkRat 3 10) = true) ∧
    ∀ v ∈ (buildCloud zero1x1 (some coh09) t0 1).coherence_attr,
      v.gtThreshold (mkRat 3 10) = true :=
  C2_amended zero1x1 coh09 1 t0 (buildCloud zero1x1 (some coh09) t0 1)
    (create_ok_some t0 1 rfl rfl)

/-- Counterexample to claim C5 as stated: with a 3×4 coherence raster
against the 4×4 deformation raster, the conversion does fail (NumPy's
boolean-mask `IndexError`; no `DimensionMismatchError` class exists in the
source), but the error is NOT caught: `main` has no `try/except`, so the
run aborts with the error instead of skipping the pair and continuing with
the remaining (well-formed) pair. -/
theorem C5_counterexample :
    create_point_cloud grid4x4 (some coh3x4) t0 2 = .error .indexError ∧
    main_loop 2 [⟨some grid4x4, some coh3x4, t0⟩, goodPair] 0
      = .error .indexError :=
  ⟨rfl, rfl⟩

/-- Claim C5 as amended: for every coherence grid whose dimensions differ
from the deformation grid's, `create_point_cloud` raises an indexing error
(no silent truncation or broadcasting), and — there being no handler in the
orchestrator — the error aborts the run, so the remaining pairs are not
processed and no count is reported. -/
theorem C5_amended (d g : Grid) (t : Transform) (S : ℕ)
    (hmm : ¬(g.height = d.height ∧ g.width = d.width))
    (rest : List PairInput) (n : ℕ) :
    create_point_cloud d (some g) t S = .error .indexError ∧
    main_loop S
        (({ deformation := some d, coherence := some g, transform := t }
          : PairInput) :: rest) n
      = .error .indexError := by
  have hc : create_point_cloud d (some g) t S = .error .indexError := by
    simp [create_point_cloud, hmm]
  exact ⟨hc, by simp [main_loop, process_deformation_file, hc]⟩

/-- Witness for C5 (amended) at the concrete 3×4-vs-4×4 input. -/
theorem C5_amended_witness :
    create_point_cloud grid4x4 (some coh3x4) t0 2 = .error .indexError ∧
    main_loop 2
        (({ deformation := some grid4x4, coherence := some coh3x4,
            transform := t0 } : PairInput) :: [goodPair]) 0
      = .error .indexError :=
  C5_amended grid4x4 coh3x4 t0 2 (by decide) [goodPair] 0

/-- Counterexample to claim C6 as stated: an error raised inside a single
pair's conversion (here: the filtering step of the first pair, whose 1×2
coherence raster mismatches the 2×2 deformation raster) is NOT caught at
the orchestrator boundary — it aborts the processing of the remaining pair
and no success count is reported. -/
theorem C6_counterexample :
    main_loop 1
      [⟨some defo2x2, some coh1x2, t0⟩, ⟨some defo2x2, none, t0⟩] 0
      = .error .indexError :=
  rfl

/-- Claim C6 as amended: errors are handled only inside the raster readers,
not at the orchestrator boundary.  A failed DEFORMATION read yields a null
grid, `process_deformation_file` returns `False`, the pair is skipped
without incrementing the count, and the loop continues.  A failed COHERENCE
read also yields a null grid, but then the conversion PROCEEDS treating
coherence as uniform full confidence (1.0) and the pair is counted as a
SUCCESS, not skipped.  An error raised in filtering (e.g. the
dimension-mismatch `IndexError`) is not caught and aborts the processing of
the remaining pairs.  The count of successfully converted pairs is reported
only when no uncaught error occurs. -/
theorem C6_amended (S n : ℕ) (rest : List PairInput)
    (p q r : PairInput) (d e g : Grid)
    (hread : p.deformation = none)
    (hq : q.deformation = some d) (hqc : q.coherence = none)
    (hr : r.deformation = some e) (hrc : r.coherence = some g)
    (hmm : ¬(g.height = e.height ∧ g.width = e.width)) :
    process_deformation_file S p = .ok false ∧
    main_loop S (p :: rest) n = main_loop S rest n ∧
    process_deformation_file S q = .ok true ∧
    main_loop S (q :: rest) n = main_loop S rest (n + 1) ∧
    main_loop S (r :: rest) n = .error .indexError ∧
    main_loop S ([] : List PairInput) n = .ok n := by
  have hp : process_deformation_file S p = .ok false := by
    simp [process_deformation_file, hread]
  have hcq : process_deformation_file S q = .ok true := by
    simp [process_deformation_file, hq, hqc, create_point_cloud]
  have hcr : process_deformation_file S r = .error .indexError := by
    simp [process_deformation_file, hr, hrc, create_point_cloud, hmm]
  refine ⟨hp, by simp [main_loop, hp], hcq, by simp [main_loop, hcq],
    by simp [main_loop, hcr], rfl⟩

/-- Witness for C6 (amended): a failed deformation read is skipped
uncounted and the loop continues; a pair whose coherence is absent
converts and is counted; a mismatched pair aborts the loop. -/
theorem C6_amended_witness :
    process_deformation_file 2
        ({ deformation := none, coherence := none, transform := t0 }
          : PairInput) = .ok false ∧
    main_loop 2
        (({ deformation := none, coherence := none, transform := t0 }
          : PairInput) :: [goodPair]) 3
      = main_loop 2 [goodPair] 3 ∧
    process_deformation_file 2 goodPair = .ok true ∧
    main_loop 2 (goodPair :: [goodPair]) 3 = main_loop 2 [goodPair] (3 + 1) ∧
    main_loop 2
        (({ deformation := some grid4x4, coherence := some coh3x4,
            transform := t0 } : PairInput) :: [goodPair]) 3
      = .error .indexError ∧
    main_loop 2 ([] : List PairInput) 3 = .ok 3 :=
  C6_amended 2 3 [goodPair]
    ({ deformation := none, coherence := none, transform := t0 } : PairInput)
    goodPair
    ({ deformation := some grid4x4, coherence := some coh3x4,
       transform := t0 } : PairInput)
    grid4x4 grid4x4 coh3x4 rfl rfl rfl rfl rfl (by decide)

/-- Claim C8: whenever zero cells survive the decimation and validity
filter (and the coherence grid's dimensions match), the builder returns an
empty `PointCloud` rather than an error, and both writers still produce
validly-formatted empty-body outputs with correct headers: the XYZ file is
exactly the header row `X Y Z deformation coherence` with no data rows, and
the LAS file has its version/point-format header fields with empty
coordinate and attribute bodies (point count 0). -/
theorem C8_empty_cloud (d g : Grid) (t : Transform) (S : ℕ)
    (hh : g.height = d.height) (hw : g.width = d.width)
    (hz : survivingIndices d (some g) S = []) :
    create_point_cloud d (some g) t S = .ok ⟨[], [], []⟩ ∧
    save_to_xyz ⟨[], [], []⟩
      = ⟨["X", "Y", "Z", "deformation", "coherence"], []⟩ ∧
    save_to_las ⟨[], [], []⟩
      = ⟨1, 4, 7, [], [], [], [("deformation", []), ("coherence", [])]⟩ ∧
    (save_to_las ⟨[], [], []⟩).point_count = 0 := by
  refine ⟨?_, rfl, rfl, rfl⟩
  rw [create_ok_some t S hh hw]
  simp [buildCloud, hz]

/-- Witness for C8 at the scenario input: the 4×4 grid with all-0.2
coherence yields zero surviving points. -/
theorem C8_witness :
    create_point_cloud grid4x4 (some coh02) t0 2 = .ok ⟨[], [], []⟩ ∧
    save_to_xyz ⟨[], [], []⟩
      = ⟨["X", "Y", "Z", "deformation", "coherence"], []⟩ ∧
    save_to_las ⟨[], [], []⟩
      = ⟨1, 4, 7, [], [], [], [("deformation", []), ("coherence", [])]⟩ ∧
    (save_to_las ⟨[], [], []⟩).point_count = 0 :=
  C8_empty_cloud grid4x4 coh02 t0 2 rfl rfl (by decide)

/-- Claim C9 (implicit in line 90): a selected cell whose coherence value
is NaN is discarded — the strict IEEE comparison `NaN > 0.3` is false — so
no emitted point ever carries a NaN coherence attribute. -/
theorem C9_nan_coherence (d g : Grid) (S : ℕ) (rc : ℕ × ℕ)
    (hnan : g.cell rc.1 rc.2 = .nan) :
    rc ∉ survivingIndices d (some g) S ∧
    ∀ (t : Transform) (pc : PointCloud),
      create_point_cloud d (some g) t S = .ok pc →
      ∀ v ∈ pc.coherence_attr, v ≠ .nan := by
  constructor
  · intro hmem
    have hvalid := (List.mem_filter.1 hmem).2
    simp [valid_mask, coherenceAt, hnan, FloatVal.gtThreshold] at hvalid
  · intro t pc h v hv
    obtain rfl := create_ok_elim h
    simp only [buildCloud, List.mem_map] at hv
    obtain ⟨rc', hrc', rfl⟩ := hv
    have hvalid := (List.mem_filter.1 hrc').2
    simp only [valid_mask, Bool.and_eq_true] at hvalid
    intro heq
    rw [heq] at hvalid
    simp [FloatVal.gtThreshold] at hvalid

/-- Witness for C9 at a concrete input: a 1×1 grid whose coherence is NaN —
its only cell does not survive. -/
theorem C9_witness :
    (0, 0) ∉ survivingIndices zero1x1 (some cohNaN) 1 ∧
    ∀ (t : Transform) (pc : PointCloud),
      create_point_cloud zero1x1 (some cohNaN) t 1 = .ok pc →
      ∀ v ∈ pc.coherence_attr, v ≠ .nan :=
  C9_nan_coherence zero1x1 cohNaN 1 (0, 0) rfl

/-- Claim C10 (implicit in lines 89-103): only NaN deformation values are
treated as missing — a selected cell whose deformation is `+inf` or `-inf`
and whose coherence passes the threshold still survives, and a point is
emitted with that infinite value as its z coordinate and deformation
attribute. -/
theorem C10_infinite_deformation (d g : Grid) (t : Transform) (S : ℕ)
    (rc : ℕ × ℕ)
    (hsel : rc ∈ selectedIndices d.height d.width S)
    (hinf : d.cell rc.1 rc.2 = .posInf ∨ d.cell rc.1 rc.2 = .negInf)
    (hcoh : (g.cell rc.1 rc.2).gtThreshold (mkRat 3 10) = true)
    (hh : g.height = d.height) (hw : g.width = d.width) :
    ∃ pc, create_point_cloud d (some g) t S = .ok pc ∧
      rc ∈ survivingIndices d (some g) S ∧
      ((cellToGround rc.1 rc.2 t).1, (cellToGround rc.1 rc.2 t).2,
        d.cell rc.1 rc.2) ∈ pc.points ∧
      d.cell rc.1 rc.2 ∈ pc.deformation_attr := by
  have hmem : rc ∈ survivingIndices d (some g) S := by
    refine List.mem_filter.2 ⟨hsel, ?_⟩
    rcases hinf with hi | hi <;>
      simp [valid_mask, coherenceAt, hi, FloatVal.isNaN, hcoh]
  exact ⟨buildCloud d (some g) t S, create_ok_some t S hh hw, hmem,
    List.mem_map.2 ⟨rc, hmem, rfl⟩, List.mem_map.2 ⟨rc, hmem, rfl⟩⟩

/-- Witness for C10 at a concrete input: a 1×1 grid with deformation `+inf`
and coherence 0.9 — the cell survives and the infinite value is emitted. -/
theorem C10_witness :
    ∃ pc, create_point_cloud inf1x1 (some coh09) t0 1 = .ok pc ∧
      (0, 0) ∈ survivingIndices inf1x1 (some coh09) 1 ∧
      ((cellToGround 0 0 t0).1, (cellToGround 0 0 t0).2,
        inf1x1.cell 0 0) ∈ pc.points ∧
      inf1x1.cell 0 0 ∈ pc.deformation_attr :=
  C10_infinite_deformation inf1x1 coh09 t0 1 (0, 0) (by decide)
    (Or.inl rfl) (by decide) rfl rfl

end Insar
